import Mathlib

/-!
Shallow embedding of the `healthcal` repository (three Python scripts:
`script.py`, `chart_script.py`, `chart_script_1.py`) and proofs about the
properties its specification states.

`script.py` builds three fixed tables (features, ROI metrics, tech specs),
writes each to a CSV file with pandas defaults, and prints derived
aggregates.  `chart_script.py` renders a fixed node/edge architecture
diagram with arrowheads.  `chart_script_1.py` renders a fixed twelve-step
user-journey flowchart with abbreviated step labels.

Data tables are transcribed row-by-row from the column-major Python
dictionaries.  Geometry (arrowhead placement) is modelled over `ℝ` with
`Real.sqrt`, idealising the scripts' floating-point arithmetic.
-/

namespace HealthCal

/-- One row of the features table of `script.py` (`features_data`):
feature category, specific feature, implementation status, user benefit,
and time saved in minutes. -/
structure FeatureRow where
  category : String
  feature : String
  status : String
  benefit : String
  timeSaved : Nat
deriving DecidableEq, Repr

/-- The fixed features table (`script.py` lines 8–49), one row per index of
the column lists of `features_data`. -/
def featuresRows : List FeatureRow := [
  ⟨"Insurance Processing", "OCR Document Upload", "Complete", "Automated data entry", 15⟩,
  ⟨"Insurance Processing", "Coverage Extraction", "Complete", "Instant coverage analysis", 10⟩,
  ⟨"Insurance Processing", "Insurance Validation", "Complete", "Error reduction", 5⟩,
  ⟨"Health Preferences", "Adaptive Questionnaire", "Complete", "Personalized care", 20⟩,
  ⟨"Health Preferences", "Health Profile Generation", "Complete", "Tailored recommendations", 10⟩,
  ⟨"Health Preferences", "Preference Learning", "Complete", "Improved accuracy", 5⟩,
  ⟨"AI Scheduling", "Annual Calendar Creation", "Complete", "Proactive scheduling", 60⟩,
  ⟨"AI Scheduling", "Provider Matching", "Complete", "Optimal provider matching", 30⟩,
  ⟨"AI Scheduling", "Appointment Optimization", "Complete", "Reduced conflicts", 15⟩,
  ⟨"User Experience", "Responsive Web Design", "Complete", "Easy access", 5⟩,
  ⟨"User Experience", "Real-time Updates", "Complete", "Real-time information", 10⟩,
  ⟨"User Experience", "Multi-device Support", "Complete", "Convenience", 5⟩,
  ⟨"Privacy & Security", "PIPEDA Compliance", "Complete", "Data protection", 30⟩,
  ⟨"Privacy & Security", "Data Encryption", "Complete", "Secure handling", 20⟩,
  ⟨"Privacy & Security", "User Consent Management", "Complete", "Transparent control", 10⟩,
  ⟨"Provider Integration", "Provider Communication", "Complete", "Streamlined booking", 25⟩,
  ⟨"Provider Integration", "Appointment Confirmation", "Complete", "Confirmed appointments", 15⟩]

/-- The `Time Saved (minutes)` column of the features table, in row order
(`features_data['Time Saved (minutes)']`). -/
def timeSavedColumn : List Nat := featuresRows.map (·.timeSaved)

/-- The total printed by the summarize step of `script.py` line 132:
`features_df['Time Saved (minutes)'].sum()`. -/
def totalTimeSaved : Nat := timeSavedColumn.sum

/-- One row of the ROI metrics table of `script.py` (`roi_data`): metric
name, baseline value, value with the product, and improvement.  Numeric
cells are rationals (the Python literals are ints and the float `8.5`). -/
structure RoiRow where
  metric : String
  baseline : ℚ
  withAI : ℚ
  improvement : ℚ
deriving DecidableEq, Repr

/-- The fixed ROI metrics table (`script.py` lines 54–76), one row per index
of the column lists of `roi_data`.  The Python numerals (`0`, `8.5`, `25`,
…) are written as explicit fractions `mkRat n d` so that they evaluate in
the kernel; `mkRat 85 10` is the literal `8.5`. -/
def roiRows : List RoiRow := [
  ⟨"Time Saved per User (hours/year)", mkRat 0 1, mkRat 85 10, mkRat 85 10⟩,
  ⟨"Missed Appointments Reduction (%)", mkRat 0 1, mkRat 25 1, mkRat 25 1⟩,
  ⟨"Administrative Cost Savings ($/user/year)", mkRat 0 1, mkRat 150 1, mkRat 150 1⟩,
  ⟨"Patient Satisfaction Improvement (%)", mkRat 70 1, mkRat 90 1, mkRat 20 1⟩,
  ⟨"Provider Efficiency Gain (%)", mkRat 60 1, mkRat 85 1, mkRat 25 1⟩,
  ⟨"Healthcare Utilization Optimization (%)", mkRat 65 1, mkRat 85 1, mkRat 20 1⟩,
  ⟨"User Adoption Rate (%)", mkRat 0 1, mkRat 75 1, mkRat 75 1⟩,
  ⟨"System Accuracy Rate (%)", mkRat 75 1, mkRat 95 1, mkRat 20 1⟩,
  ⟨"Privacy Compliance Score (%)", mkRat 80 1, mkRat 98 1, mkRat 18 1⟩,
  ⟨"Provider Integration Success (%)", mkRat 40 1, mkRat 80 1, mkRat 40 1⟩]

/-- The rows selected by the summarize loop of `script.py` lines 135–137:
`roi_df` rows with `row['Improvement'] > 0`. -/
def roiImprovedRows : List RoiRow := roiRows.filter (fun r => 0 < r.improvement)

/-- One row of the technical-specifications table of `script.py`
(`tech_specs`): component, technology description, key capability. -/
structure TechRow where
  component : String
  technology : String
  capability : String
deriving DecidableEq, Repr

/-- The fixed technical-specifications table (`script.py` lines 81–118), one
row per index of the column lists of `tech_specs`. -/
def techRows : List TechRow := [
  ⟨"Frontend Framework", "React.js with responsive design", "Cross-platform accessibility"⟩,
  ⟨"Insurance OCR Engine", "Advanced OCR with ML validation", "95% accuracy in coverage extraction"⟩,
  ⟨"AI Questionnaire System", "Adaptive AI with natural language processing", "Learns from user responses"⟩,
  ⟨"Scheduling Algorithm", "Multi-objective optimization engine", "Optimizes for cost, location, and preference"⟩,
  ⟨"Database Architecture", "Encrypted cloud storage with local caching", "Secure, scalable data management"⟩,
  ⟨"Security Implementation", "End-to-end encryption, PIPEDA compliant", "Meets Canadian healthcare regulations"⟩,
  ⟨"Provider API Integration", "RESTful APIs with healthcare standards", "Real-time provider communication"⟩,
  ⟨"Calendar Interface", "Interactive annual view with drag-drop", "Visual appointment management"⟩,
  ⟨"Mobile Responsiveness", "Progressive Web App (PWA) ready", "Works on all devices seamlessly"⟩,
  ⟨"Privacy Compliance", "Built-in privacy controls and audit logs", "Transparent data handling"⟩]

/-- Whether a string contains the comma delimiter used by the CSV export. -/
def containsComma (s : String) : Bool := s.toList.contains ','

/-- All string-valued cells of the features table, in row-major order. -/
def featuresStringCells : List String :=
  featuresRows.flatMap (fun r => [r.category, r.feature, r.status, r.benefit])

/-- All string-valued cells of the ROI metrics table, in row-major order. -/
def roiStringCells : List String := roiRows.map (·.metric)

/-- All cells of the technical-specifications table, in row-major order. -/
def techCells : List String :=
  techRows.flatMap (fun r => [r.component, r.technology, r.capability])

/-- The technology column of the technical-specifications table
(`tech_specs['Technology']`). -/
def techTechnologyColumn : List String := techRows.map (·.technology)

/-- C1 counterexample: the sum of the `Time Saved (minutes)` column computed
by the summarize step of `script.py` is not 280, contrary to the spec's
example. -/
theorem totalTimeSaved_ne_280 : totalTimeSaved ≠ 280 := by decide

/-- C1 (amended): the sum of the `Time Saved (minutes)` column
[15,10,5,20,10,5,60,30,15,5,10,5,30,20,10,25,15] computed and printed by the
summarize step of `script.py` line 132 equals 290. -/
theorem totalTimeSaved_eq_290 : totalTimeSaved = 290 := by decide

/-- C3 counterexample: the Technology cell of the `Security Implementation`
row of the fixed tech-specs table contains the comma delimiter used by the
CSV export. -/
theorem techSpecs_cell_contains_comma :
    "End-to-end encryption, PIPEDA compliant" ∈ techTechnologyColumn ∧
    containsComma "End-to-end encryption, PIPEDA compliant" = true := by
  constructor
  · decide
  · decide

/-- C3 (amended): no string cell of the features table or of the ROI metrics
table contains the comma delimiter, and exactly three cells of the
tech-specs table do — the `Scheduling Algorithm` and `Database Architecture`
capability cells and the `Security Implementation` technology cell. -/
theorem report_cells_comma_audit :
    featuresStringCells.all (fun s => !(containsComma s)) = true ∧
    roiStringCells.all (fun s => !(containsComma s)) = true ∧
    techCells.filter containsComma =
      ["Optimizes for cost, location, and preference",
       "Secure, scalable data management",
       "End-to-end encryption, PIPEDA compliant"] := by
  refine ⟨by decide, by decide, by decide⟩

/-- C10: in every row of the fixed ROI metrics table the `Improvement` value
equals `With HealthSync AI` minus `Baseline (Without AI)`, and the summarize
filter `Improvement > 0` of `script.py` line 136 keeps all ten rows. -/
theorem roi_improvement_consistent :
    roiRows.all
      (fun r => decide (r.improvement = r.withAI - r.baseline) &&
                decide (0 < r.improvement)) = true ∧
    roiImprovedRows = roiRows ∧ roiRows.length = 10 := by
  refine ⟨?_, ?_, by decide⟩
  · norm_num [roiRows, List.all, mkRat]
  · norm_num [roiImprovedRows, roiRows, List.filter, mkRat]

/-- One node of the architecture diagram of `chart_script.py`
(`components_data`): name, position, category.  Positions are the rational
decimal literals of the source. -/
structure DiagramNode where
  name : String
  pos : ℚ × ℚ
  category : String
deriving DecidableEq, Repr

/-- The fixed node table of `chart_script.py` lines 5–15, in the insertion
order of `components_data`.  The decimal position literals are written as
explicit tenths `mkRat n 10` so that they evaluate in the kernel;
`mkRat 1 10` is the literal `0.1`. -/
def components_data : List DiagramNode := [
  ⟨"User Interface", (mkRat 1 10, mkRat 6 10), "frontend"⟩,
  ⟨"Insurance OCR", (mkRat 3 10, mkRat 8 10), "ai"⟩,
  ⟨"Preference AI", (mkRat 3 10, mkRat 4 10), "ai"⟩,
  ⟨"Coverage Data", (mkRat 5 10, mkRat 8 10), "data"⟩,
  ⟨"Health Profile", (mkRat 5 10, mkRat 4 10), "data"⟩,
  ⟨"Scheduling AI", (mkRat 7 10, mkRat 6 10), "ai"⟩,
  ⟨"Provider DB", (mkRat 7 10, mkRat 2 10), "data"⟩,
  ⟨"Calendar Gen", (mkRat 9 10, mkRat 6 10), "output"⟩,
  ⟨"Communication", (mkRat 9 10, mkRat 2 10), "integration"⟩]

/-- The fixed directed edge list of `chart_script.py` lines 18–29
(`connections`), each pair (source name, destination name). -/
def connections : List (String × String) := [
  ("User Interface", "Insurance OCR"),
  ("User Interface", "Preference AI"),
  ("Insurance OCR", "Coverage Data"),
  ("Preference AI", "Health Profile"),
  ("Coverage Data", "Scheduling AI"),
  ("Health Profile", "Scheduling AI"),
  ("Scheduling AI", "Provider DB"),
  ("Provider DB", "Calendar Gen"),
  ("Calendar Gen", "User Interface"),
  ("Calendar Gen", "Communication")]

/-- The fixed category → color lookup of `chart_script.py` lines 32–39
(`color_map`), in insertion order. -/
def color_map : List (String × String) := [
  ("frontend", "#1565C0"),
  ("ai", "#2E7D32"),
  ("data", "#0277BD"),
  ("output", "#388E3C"),
  ("integration", "#0288D1"),
  ("security", "#D32F2F")]

/-- Position lookup `components_data[name]["pos"]`; a missing key raises
`KeyError` in Python, modelled as `none`. -/
def lookupPos (nodes : List DiagramNode) (nm : String) : Option (ℚ × ℚ) :=
  (nodes.find? (fun n => n.name == nm)).map (·.pos)

/-- The nodes of one category, as the filter of `chart_script.py` line 91
(`category_nodes`). -/
def categoryGroup (nodes : List DiagramNode) (cat : String) : List DiagramNode :=
  nodes.filter (fun n => n.category == cat)

/-- The node groups actually rendered by the loop of `chart_script.py`
lines 90–113: one group per `color_map` entry, empty groups skipped by the
`if category_nodes:` test. -/
def renderedGroups (nodes : List DiagramNode) : List (List DiagramNode) :=
  (color_map.map (fun c => categoryGroup nodes c.1)).filter (fun g => !g.isEmpty)

/-- A rational position cast to the real plane where the geometry runs. -/
def castPos (p : ℚ × ℚ) : ℝ × ℝ := ((p.1 : ℝ), (p.2 : ℝ))

/-- The segment length `np.sqrt(dx**2 + dy**2)` of `chart_script.py`
line 65, with `dx = x1 - x0`, `dy = y1 - y0`. -/
noncomputable def edgeLength (a b : ℝ × ℝ) : ℝ :=
  Real.sqrt ((b.1 - a.1) ^ 2 + (b.2 - a.2) ^ 2)

/-- The arrowhead position of `chart_script.py` lines 69–74:
`(x1 - 0.03 * dx_norm, y1 - 0.03 * dy_norm)` with
`dx_norm = dx / length`, `dy_norm = dy / length`. -/
noncomputable def arrowheadPos (a b : ℝ × ℝ) : ℝ × ℝ :=
  (b.1 - 0.03 * ((b.1 - a.1) / edgeLength a b),
   b.2 - 0.03 * ((b.2 - a.2) / edgeLength a b))

/-- Two-argument arctangent with the quadrant conventions of
`np.arctan2(y, x)` (and `atan2(0, 0) = 0`). -/
noncomputable def atan2 (y x : ℝ) : ℝ :=
  if 0 < x then Real.arctan (y / x)
  else if x < 0 then
    (if 0 ≤ y then Real.arctan (y / x) + Real.pi
     else Real.arctan (y / x) - Real.pi)
  else
    (if 0 < y then Real.pi / 2
     else if y < 0 then -(Real.pi / 2) else 0)

/-- The arrowhead marker orientation of `chart_script.py` line 83:
`np.degrees(np.arctan2(dy, dx))`. -/
noncomputable def arrowAngleDeg (a b : ℝ × ℝ) : ℝ :=
  (180 / Real.pi) * atan2 (b.2 - a.2) (b.1 - a.1)

/-- The arrowhead marker an edge emits, `none` when the `if length > 0:`
guard of `chart_script.py` line 68 skips it: position and angle in degrees
otherwise. -/
noncomputable def edgeArrow (a b : ℝ × ℝ) : Option ((ℝ × ℝ) × ℝ) :=
  if 0 < edgeLength a b then some (arrowheadPos a b, arrowAngleDeg a b)
  else none

lemma edgeLength_eq_zero_iff (a b : ℝ × ℝ) : edgeLength a b = 0 ↔ a = b := by
  unfold edgeLength
  rw [Real.sqrt_eq_zero']
  constructor
  · intro h
    have h1 : b.1 - a.1 = 0 := by nlinarith [sq_nonneg (b.1 - a.1), sq_nonneg (b.2 - a.2)]
    have h2 : b.2 - a.2 = 0 := by nlinarith [sq_nonneg (b.1 - a.1), sq_nonneg (b.2 - a.2)]
    exact Prod.ext_iff.mpr ⟨by linarith, by linarith⟩
  · intro h
    subst h
    simp

lemma edgeLength_nonneg (a b : ℝ × ℝ) : 0 ≤ edgeLength a b := by
  unfold edgeLength; exact Real.sqrt_nonneg _

lemma edgeLength_pos_iff (a b : ℝ × ℝ) : 0 < edgeLength a b ↔ a ≠ b := by
  constructor
  · intro h hab
    rw [(edgeLength_eq_zero_iff a b).mpr hab] at h
    exact lt_irrefl 0 h
  · intro h
    rcases lt_or_eq_of_le (edgeLength_nonneg a b) with hlt | heq
    · exact hlt
    · exact absurd ((edgeLength_eq_zero_iff a b).mp heq.symm) h

lemma edgeArrow_some (a b : ℝ × ℝ) (h : 0 < edgeLength a b) :
    edgeArrow a b = some (arrowheadPos a b, arrowAngleDeg a b) := by
  unfold edgeArrow; rw [if_pos h]

lemma lt_edgeLength_of_sq_lt (a b : ℝ × ℝ) (c : ℝ) (hc : 0 ≤ c)
    (h : c ^ 2 < (b.1 - a.1) ^ 2 + (b.2 - a.2) ^ 2) : c < edgeLength a b := by
  unfold edgeLength
  exact (Real.lt_sqrt hc).mpr h

lemma sq_edgeLength (a b : ℝ × ℝ) :
    edgeLength a b ^ 2 = (b.1 - a.1) ^ 2 + (b.2 - a.2) ^ 2 := by
  unfold edgeLength
  exact Real.sq_sqrt (by positivity)

lemma arrow_strictly_between (a b : ℝ × ℝ) (h : 0.03 < edgeLength a b) :
    (∃ t : ℝ, 0 < t ∧ t < 1 ∧ t = 1 - 0.03 / edgeLength a b ∧
      arrowheadPos a b
        = (a.1 + t * (b.1 - a.1), a.2 + t * (b.2 - a.2))) ∧
    edgeLength (arrowheadPos a b) b = 0.03 := by
  have hL0 : 0 < edgeLength a b := lt_trans (by norm_num) h
  have hne : edgeLength a b ≠ 0 := ne_of_gt hL0
  constructor
  · refine ⟨1 - 0.03 / edgeLength a b, ?_, ?_, rfl, ?_⟩
    · have h1 : 0.03 / edgeLength a b < 1 := (div_lt_one hL0).mpr h
      linarith
    · have h2 : 0 < 0.03 / edgeLength a b := div_pos (by norm_num) hL0
      linarith
    · unfold arrowheadPos
      rw [Prod.ext_iff]
      constructor
      · show _ - _ * _ = _
        field_simp
        ring
      · show _ - _ * _ = _
        field_simp
        ring
  · have e1 : b.1 - (arrowheadPos a b).1
        = 0.03 * ((b.1 - a.1) / edgeLength a b) := by
      unfold arrowheadPos; ring
    have e2 : b.2 - (arrowheadPos a b).2
        = 0.03 * ((b.2 - a.2) / edgeLength a b) := by
      unfold arrowheadPos; ring
    have key : (b.1 - (arrowheadPos a b).1) ^ 2 + (b.2 - (arrowheadPos a b).2) ^ 2
        = 0.03 ^ 2 := by
      rw [e1, e2]
      have hsq := sq_edgeLength a b
      have hunit : (b.1 - a.1) ^ 2 / edgeLength a b ^ 2
          + (b.2 - a.2) ^ 2 / edgeLength a b ^ 2 = 1 := by
        rw [div_add_div_same, ← hsq, div_self (pow_ne_zero 2 hne)]
      calc (0.03 * ((b.1 - a.1) / edgeLength a b)) ^ 2
            + (0.03 * ((b.2 - a.2) / edgeLength a b)) ^ 2
          = 0.03 ^ 2 * ((b.1 - a.1) ^ 2 / edgeLength a b ^ 2
              + (b.2 - a.2) ^ 2 / edgeLength a b ^ 2) := by ring
        _ = 0.03 ^ 2 := by rw [hunit, mul_one]
    have : edgeLength (arrowheadPos a b) b
        = Real.sqrt ((b.1 - (arrowheadPos a b).1) ^ 2 + (b.2 - (arrowheadPos a b).2) ^ 2) := by
      unfold edgeLength
      ring_nf
    rw [this, key, Real.sqrt_sq (by norm_num)]

/-- The conjunction of arrowhead facts C4 states for one fixed edge whose
endpoint positions are strictly more than 0.03 apart. -/
lemma arrow_edge_props (pa pb : ℚ × ℚ)
    (h : 0.03 < edgeLength (castPos pa) (castPos pb)) :
    edgeArrow (castPos pa) (castPos pb)
      = some (arrowheadPos (castPos pa) (castPos pb),
              arrowAngleDeg (castPos pa) (castPos pb)) ∧
    (∃ t : ℝ, 0 < t ∧ t < 1 ∧
      t = 1 - 0.03 / edgeLength (castPos pa) (castPos pb) ∧
      arrowheadPos (castPos pa) (castPos pb)
        = ((castPos pa).1 + t * ((castPos pb).1 - (castPos pa).1),
           (castPos pa).2 + t * ((castPos pb).2 - (castPos pa).2))) ∧
    edgeLength (arrowheadPos (castPos pa) (castPos pb)) (castPos pb) = 0.03 :=
  ⟨edgeArrow_some _ _ (lt_trans (by norm_num) h),
   (arrow_strictly_between _ _ h).1, (arrow_strictly_between _ _ h).2⟩

/-- C7: the arrowhead computation is guarded against zero-length edges —
`edgeArrow` emits no marker exactly when the endpoint positions coincide,
and when they differ the segment length divided by is nonzero and the
marker is emitted at `arrowheadPos` with angle `arrowAngleDeg`. -/
theorem arrowhead_zero_length_guard (a b : ℝ × ℝ) :
    (edgeArrow a b = none ↔ a = b) ∧
    (a ≠ b → edgeLength a b ≠ 0 ∧
      edgeArrow a b = some (arrowheadPos a b, arrowAngleDeg a b)) := by
  constructor
  · unfold edgeArrow
    rw [← edgeLength_eq_zero_iff a b]
    constructor
    · intro h
      by_contra hne
      have hpos : 0 < edgeLength a b :=
        lt_of_le_of_ne (Real.sqrt_nonneg _) (Ne.symm hne)
      rw [if_pos hpos] at h
      exact Option.noConfusion h
    · intro h
      rw [if_neg (by rw [h]; exact lt_irrefl 0)]
  · intro hne
    have hpos : 0 < edgeLength a b := (edgeLength_pos_iff a b).mpr hne
    exact ⟨ne_of_gt hpos, by unfold edgeArrow; rw [if_pos hpos]⟩

/-- C4: for every edge of the fixed connection list the looked-up endpoint
positions are distinct, the arrowhead marker is emitted at
`b − 0.03·((b−a)/‖b−a‖)` oriented by `atan2(dy,dx)` in degrees, that point
lies strictly between the endpoints at parameter `1 − 0.03/‖b−a‖` (so at
fractional distance `0.03/‖b−a‖` from `b`, i.e. at distance `0.03` from
`b`); and for nodes at `(0,0)` and `(1,0)` the arrowhead lies at
`(0.97, 0)`. -/
theorem arrowheads_between_endpoints :
    (∀ e ∈ connections, ∃ pa pb : ℚ × ℚ,
      lookupPos components_data e.1 = some pa ∧
      lookupPos components_data e.2 = some pb ∧
      pa ≠ pb ∧
      edgeArrow (castPos pa) (castPos pb)
        = some (arrowheadPos (castPos pa) (castPos pb),
                arrowAngleDeg (castPos pa) (castPos pb)) ∧
      (∃ t : ℝ, 0 < t ∧ t < 1 ∧
        t = 1 - 0.03 / edgeLength (castPos pa) (castPos pb) ∧
        arrowheadPos (castPos pa) (castPos pb)
          = ((castPos pa).1 + t * ((castPos pb).1 - (castPos pa).1),
             (castPos pa).2 + t * ((castPos pb).2 - (castPos pa).2))) ∧
      edgeLength (arrowheadPos (castPos pa) (castPos pb)) (castPos pb) = 0.03) ∧
    arrowheadPos ((0 : ℝ), (0 : ℝ)) ((1 : ℝ), (0 : ℝ)) = ((0.97 : ℝ), (0 : ℝ)) := by
  constructor
  · intro e he
    fin_cases he
    · exact ⟨(mkRat 1 10, mkRat 6 10), (mkRat 3 10, mkRat 8 10), by decide, by decide, by decide,
        arrow_edge_props _ _ (lt_edgeLength_of_sq_lt _ _ _ (by norm_num)
          (by norm_num [castPos, mkRat]))⟩
    · exact ⟨(mkRat 1 10, mkRat 6 10), (mkRat 3 10, mkRat 4 10), by decide, by decide, by decide,
        arrow_edge_props _ _ (lt_edgeLength_of_sq_lt _ _ _ (by norm_num)
          (by norm_num [castPos, mkRat]))⟩
    · exact ⟨(mkRat 3 10, mkRat 8 10), (mkRat 5 10, mkRat 8 10), by decide, by decide, by decide,
        arrow_edge_props _ _ (lt_edgeLength_of_sq_lt _ _ _ (by norm_num)
          (by norm_num [castPos, mkRat]))⟩
    · exact ⟨(mkRat 3 10, mkRat 4 10), (mkRat 5 10, mkRat 4 10), by decide, by decide, by decide,
        arrow_edge_props _ _ (lt_edgeLength_of_sq_lt _ _ _ (by norm_num)
          (by norm_num [castPos, mkRat]))⟩
    · exact ⟨(mkRat 5 10, mkRat 8 10), (mkRat 7 10, mkRat 6 10), by decide, by decide, by decide,
        arrow_edge_props _ _ (lt_edgeLength_of_sq_lt _ _ _ (by norm_num)
          (by norm_num [castPos, mkRat]))⟩
    · exact ⟨(mkRat 5 10, mkRat 4 10), (mkRat 7 10, mkRat 6 10), by decide, by decide, by decide,
        arrow_edge_props _ _ (lt_edgeLength_of_sq_lt _ _ _ (by norm_num)
          (by norm_num [castPos, mkRat]))⟩
    · exact ⟨(mkRat 7 10, mkRat 6 10), (mkRat 7 10, mkRat 2 10), by decide, by decide, by decide,
        arrow_edge_props _ _ (lt_edgeLength_of_sq_lt _ _ _ (by norm_num)
          (by norm_num [castPos, mkRat]))⟩
    · exact ⟨(mkRat 7 10, mkRat 2 10), (mkRat 9 10, mkRat 6 10), by decide, by decide, by decide,
        arrow_edge_props _ _ (lt_edgeLength_of_sq_lt _ _ _ (by norm_num)
          (by norm_num [castPos, mkRat]))⟩
    · exact ⟨(mkRat 9 10, mkRat 6 10), (mkRat 1 10, mkRat 6 10), by decide, by decide, by decide,
        arrow_edge_props _ _ (lt_edgeLength_of_sq_lt _ _ _ (by norm_num)
          (by norm_num [castPos, mkRat]))⟩
    · exact ⟨(mkRat 9 10, mkRat 6 10), (mkRat 9 10, mkRat 2 10), by decide, by decide, by decide,
        arrow_edge_props _ _ (lt_edgeLength_of_sq_lt _ _ _ (by norm_num)
          (by norm_num [castPos, mkRat]))⟩
  · have hL : edgeLength ((0 : ℝ), (0 : ℝ)) ((1 : ℝ), (0 : ℝ)) = 1 := by
      unfold edgeLength
      norm_num
    unfold arrowheadPos
    rw [hL]
    norm_num [Prod.ext_iff]

/-- C9: every edge of the fixed connection list names a source and a
destination that are keys of the fixed node mapping. -/
theorem connections_endpoints_exist :
    connections.all (fun c =>
      (lookupPos components_data c.1).isSome &&
      (lookupPos components_data c.2).isSome) = true := by decide

/-- C5: grouping the fixed nodes by category for rendering partitions the
node set — the group sizes sum to the node count and every node lies in
exactly one rendered group. -/
theorem category_grouping_partitions :
    ((renderedGroups components_data).map List.length).sum
      = components_data.length ∧
    components_data.all (fun n =>
      (renderedGroups components_data).countP (fun g => decide (n ∈ g)) == 1)
      = true := by
  refine ⟨by decide, by decide⟩

/-- One drawing operation of `chart_script.py`, in the order the script
issues them: an edge's line trace (`fig.add_trace` at line 53), an edge's
arrowhead marker (line 76), one category's node-marker trace (line 98,
carrying the `node_x`, `node_y` and `node_text` lists), the fixed overlay
rectangle (`fig.add_shape`, line 116) and the fixed overlay annotated
marker (line 125).  Each constructor carries the data the script computes
that operation from. -/
inductive Trace where
  | edgeLine (a b : ℚ × ℚ)
  | arrowMarker (a b : ℚ × ℚ)
  | nodeGroup (category : String) (x y : List ℚ) (text : List String)
  | overlayRect
  | overlayMarker
deriving DecidableEq, Repr

/-- The traces the edge loop of `chart_script.py` lines 45–87 issues, in
order: per connection a line trace, then an arrowhead marker unless the
`length > 0` guard fails (the endpoint positions coincide — see
`guard_eq_length_pos`).  A connection naming an unknown node raises
`KeyError` in Python, modelled as `none`. -/
def edgeTracesFor (nodes : List DiagramNode) :
    List (String × String) → Option (List Trace)
  | [] => some []
  | c :: cs => do
    let pa ← lookupPos nodes c.1
    let pb ← lookupPos nodes c.2
    let rest ← edgeTracesFor nodes cs
    pure ((if pa != pb then [Trace.edgeLine pa pb, Trace.arrowMarker pa pb]
           else [Trace.edgeLine pa pb]) ++ rest)

lemma castPos_inj (pa pb : ℚ × ℚ) : castPos pa = castPos pb ↔ pa = pb := by
  unfold castPos
  rw [Prod.ext_iff, Prod.ext_iff]
  simp [Rat.cast_inj]

/-- The rational-level arrowhead guard of `edgeTracesFor` agrees with the
script's `length > 0` test on the cast positions. -/
lemma guard_eq_length_pos (pa pb : ℚ × ℚ) :
    (pa != pb) = true ↔ 0 < edgeLength (castPos pa) (castPos pb) := by
  rw [bne_iff_ne, edgeLength_pos_iff]
  exact not_congr (castPos_inj pa pb).symm

/-- The traces the node loop of `chart_script.py` lines 90–113 issues: one
marker trace per `color_map` category, skipping empty groups, with marker
coordinates and text labels read off the category's nodes. -/
def nodeTracesFor (nodes : List DiagramNode) : List Trace :=
  (color_map.map (fun c =>
    if (categoryGroup nodes c.1).isEmpty then []
    else [Trace.nodeGroup c.1
      ((categoryGroup nodes c.1).map (·.pos.1))
      ((categoryGroup nodes c.1).map (·.pos.2))
      ((categoryGroup nodes c.1).map (·.name))])).flatten

/-- The full ordered drawing sequence of `chart_script.py`: all edge
traces, then all node-group traces, then unconditionally the fixed privacy
overlay — rectangle shape, then annotated marker. -/
def renderTraces (nodes : List DiagramNode) (conns : List (String × String)) :
    Option (List Trace) :=
  (edgeTracesFor nodes conns).map
    (fun es => es ++ nodeTracesFor nodes ++ [Trace.overlayRect, Trace.overlayMarker])

/-- Whether a trace is an edge drawing operation (line or arrowhead). -/
def isEdgeTrace : Trace → Bool
  | Trace.edgeLine _ _ => true
  | Trace.arrowMarker _ _ => true
  | _ => false

/-- Whether a trace is a node-marker drawing operation. -/
def isNodeTrace : Trace → Bool
  | Trace.nodeGroup _ _ _ _ => true
  | _ => false

lemma edgeTracesFor_all (nodes : List DiagramNode) :
    ∀ (conns : List (String × String)) (es : List Trace),
      edgeTracesFor nodes conns = some es → ∀ t ∈ es, isEdgeTrace t = true := by
  intro conns
  induction conns with
  | nil =>
    intro es h t ht
    unfold edgeTracesFor at h
    cases h
    cases ht
  | cons c cs ih =>
    intro es h t ht
    unfold edgeTracesFor at h
    cases hpa : lookupPos nodes c.1 with
    | none => rw [hpa] at h; cases h
    | some pa =>
      cases hpb : lookupPos nodes c.2 with
      | none => rw [hpa, hpb] at h; cases h
      | some pb =>
        cases hrest : edgeTracesFor nodes cs with
        | none => rw [hpa, hpb, hrest] at h; cases h
        | some rest =>
          rw [hpa, hpb, hrest] at h
          simp only [Option.bind_eq_bind, Option.some_bind, Option.pure_def,
            Option.some.injEq] at h
          subst h
          rcases List.mem_append.mp ht with hl | hr
          · by_cases hg : (pa != pb) = true
            · rw [if_pos hg] at hl
              rcases List.mem_cons.mp hl with rfl | hl2
              · rfl
              · rw [List.mem_singleton] at hl2
                subst hl2
                rfl
            · rw [if_neg hg] at hl
              rw [List.mem_singleton] at hl
              subst hl
              rfl
          · exact ih rest hrest t hr

lemma nodeTracesFor_all (nodes : List DiagramNode) :
    ∀ t ∈ nodeTracesFor nodes, isNodeTrace t = true := by
  intro t ht
  unfold nodeTracesFor at ht
  rw [List.mem_flatten] at ht
  obtain ⟨l, hl, htl⟩ := ht
  rw [List.mem_map] at hl
  obtain ⟨c, _, rfl⟩ := hl
  by_cases hg : (categoryGroup nodes c.1).isEmpty = true
  · rw [if_pos hg] at htl
    cases htl
  · rw [if_neg hg] at htl
    rw [List.mem_singleton] at htl
    subst htl
    rfl

/-- C8: whatever the node and edge data, when the renderer completes, its
drawing sequence is exactly some edge traces (lines and arrowheads), then
some node-marker traces, then — last and unconditionally — the fixed
decorative overlay: the translucent rectangle and the one annotated
marker.  In particular every edge trace precedes every node trace. -/
theorem traces_ordered (nodes : List DiagramNode)
    (conns : List (String × String)) (ts : List Trace)
    (h : renderTraces nodes conns = some ts) :
    ∃ E N, ts = E ++ N ++ [Trace.overlayRect, Trace.overlayMarker] ∧
      (∀ t ∈ E, isEdgeTrace t = true) ∧ (∀ t ∈ N, isNodeTrace t = true) := by
  unfold renderTraces at h
  cases hE : edgeTracesFor nodes conns with
  | none => rw [hE] at h; cases h
  | some es =>
    rw [hE] at h
    simp only [Option.map_some', Option.some.injEq] at h
    subst h
    exact ⟨es, nodeTracesFor nodes, rfl,
      edgeTracesFor_all nodes conns es hE, nodeTracesFor_all nodes⟩

/-- Witness for C8: the renderer completes on the fixed data of
`chart_script.py` and its drawing sequence decomposes as the theorem
states. -/
theorem traces_ordered_witness :
    ∃ ts E N, renderTraces components_data connections = some ts ∧
      ts = E ++ N ++ [Trace.overlayRect, Trace.overlayMarker] ∧
      (∀ t ∈ E, isEdgeTrace t = true) ∧ (∀ t ∈ N, isNodeTrace t = true) := by
  have hs : (renderTraces components_data connections).isSome = true := by decide
  obtain ⟨E, N, h1, h2, h3⟩ :=
    traces_ordered components_data connections _ (Option.some_get hs).symm
  exact ⟨_, E, N, (Option.some_get hs).symm, h1, h2, h3⟩

/-- One step of the user-journey flowchart of `chart_script_1.py`
(`data["steps"]`): id, title, description, type tag and time estimate. -/
structure JourneyStep where
  id : Nat
  title : String
  description : String
  type : String
  time : String
deriving DecidableEq, Repr

/-- The fixed twelve-step journey table of `chart_script_1.py` lines 5–20. -/
def steps : List JourneyStep := [
  ⟨1, "Welcome Landing", "User arrives at HealthSync AI", "start", "30 seconds"⟩,
  ⟨2, "Upload Insurance", "Upload policy document", "action", "2 minutes"⟩,
  ⟨3, "AI Processing", "OCR extracts coverage data", "ai", "30 seconds"⟩,
  ⟨4, "Review Coverage", "Verify extracted information", "review", "1 minute"⟩,
  ⟨5, "Health Questionnaire", "Answer preference questions", "action", "5 minutes"⟩,
  ⟨6, "AI Profile Generation", "Create health profile", "ai", "15 seconds"⟩,
  ⟨7, "View Annual Calendar", "See proposed appointments", "review", "3 minutes"⟩,
  ⟨8, "Appointment Details", "Review provider information", "review", "2 minutes"⟩,
  ⟨9, "Make Changes?", "Accept or modify appointments", "decision", "1 minute"⟩,
  ⟨10, "Send to Providers", "Submit appointment requests", "action", "30 seconds"⟩,
  ⟨11, "Track Status", "Monitor appointment confirmations", "monitoring", "Ongoing"⟩,
  ⟨12, "Confirmation", "Receive provider responses", "end", "24-48 hours"⟩]

/-- The fixed abbreviation table of `chart_script_1.py` lines 26–39
(`title_map`), mapping each step title to the shorter display title. -/
def title_map : List (String × String) := [
  ("Welcome Landing", "Welcome"),
  ("Upload Insurance", "Upload Docs"),
  ("AI Processing", "AI Process"),
  ("Review Coverage", "Review Plan"),
  ("Health Questionnaire", "Health Survey"),
  ("AI Profile Generation", "AI Profile"),
  ("View Annual Calendar", "View Calendar"),
  ("Appointment Details", "Appt Details"),
  ("Make Changes?", "Accept/Modify?"),
  ("Send to Providers", "Send Requests"),
  ("Track Status", "Track Status"),
  ("Confirmation", "Confirmation")]

/-- `df['title'].map(title_map)` for one row: the display title the step's
marker trace is labelled with (`text=row['display_title']`,
`chart_script_1.py` line 118); `none` models pandas' NaN for a title
missing from `title_map`. -/
def displayTitle (s : JourneyStep) : Option String :=
  (title_map.find? (fun p => p.1 == s.title)).map (·.2)

/-- The labels emitted with the twelve step markers, in step order. -/
def journeyLabels : List (Option String) := steps.map displayTitle

/-- C2 counterexample: the first rendered step of `chart_script_1.py` is
titled `Welcome Landing` but its marker is labelled with the transformed
display title `Welcome`, so an emitted label differs from the node's name. -/
theorem journey_label_differs_from_title :
    (steps.map (fun s => (s.title, displayTitle s))).head?
      = some ("Welcome Landing", some "Welcome") ∧
    ("Welcome" : String) ≠ "Welcome Landing" := by
  refine ⟨by decide, by decide⟩

/-- C2 (amended): in the architecture diagram every node-marker trace is
labelled with exactly the names of its group's nodes (the label lists equal
the name lists, positionally aligned with the coordinate lists); in the
user-journey flowchart every step's marker is labelled with the
abbreviated display title looked up in `title_map` — defined for all
twelve steps but equal to the step's title for only two of them. -/
theorem node_labels_audit :
    (nodeTracesFor components_data).all (fun t =>
      match t with
      | Trace.nodeGroup c x y text =>
          x == (categoryGroup components_data c).map (·.pos.1) &&
          y == (categoryGroup components_data c).map (·.pos.2) &&
          text == (categoryGroup components_data c).map (·.name)
      | _ => false) = true ∧
    journeyLabels.all (·.isSome) = true ∧
    (steps.filter (fun s => displayTitle s == some s.title)).length = 2 ∧
    steps.length = 12 := by
  refine ⟨by decide, by decide, by decide, by decide⟩

/-! ### CSV export and re-parsing (`to_csv` of `script.py` lines 122–125)

`to_csv(..., index=False)` writes a header row and the data rows, joined by
newlines, fields joined by commas; with the default `QUOTE_MINIMAL` a field
is quoted exactly when it contains the delimiter, the quote character or a
line break, and quote characters inside it are doubled.  Numeric cells are
written as pandas renders them: the all-integer baseline column as plain
integers, the mixed ROI columns (float64) with one decimal digit, the
minutes column as plain integers.  The parser below reads that text back:
split into lines, then a quote-aware field scan per line. -/

/-- Whether `QUOTE_MINIMAL` must quote the field. -/
def needsQuoting (s : String) : Bool :=
  s.toList.any (fun c => c = ',' || c = '"' || c = '\n' || c = '\r')

/-- One exported field: quoted with doubled inner quotes when needed. -/
def escapeField (s : String) : String :=
  if needsQuoting s then
    "\"" ++ String.mk (s.toList.flatMap (fun c => if c = '"' then ['"', '"'] else [c])) ++ "\""
  else s

/-- One exported row: escaped fields joined by the comma delimiter. -/
def renderRow (fields : List String) : String :=
  String.intercalate "," (fields.map escapeField)

/-- The exported file body: rows joined by newlines (the trailing newline
`to_csv` ends the file with is dropped, as reading it back does). -/
def renderCSV (rows : List (List String)) : String :=
  String.intercalate "\n" (rows.map renderRow)

/-- Split a character stream at each occurrence of a separator. -/
def splitOnChar (sep : Char) : List Char → List (List Char)
  | [] => [[]]
  | c :: rest =>
    let r := splitOnChar sep rest
    if c = sep then [] :: r
    else
      match r with
      | [] => [[c]]
      | h :: t => (c :: h) :: t

/-- Quote-aware field scan of one CSV line: `inQ` says whether the scan is
inside a quoted field, `cur` holds the current field's characters in
reverse, `acc` the fields already read. -/
def parseFieldsAux : Bool → List Char → List Char → List String → List String
  | false, cur, [], acc => acc ++ [String.mk cur.reverse]
  | false, cur, ',' :: rest, acc =>
      parseFieldsAux false [] rest (acc ++ [String.mk cur.reverse])
  | false, cur, '"' :: rest, acc => parseFieldsAux true cur rest acc
  | false, cur, c :: rest, acc => parseFieldsAux false (c :: cur) rest acc
  | true, cur, '"' :: '"' :: rest, acc => parseFieldsAux true ('"' :: cur) rest acc
  | true, cur, '"' :: rest, acc => parseFieldsAux false cur rest acc
  | true, cur, c :: rest, acc => parseFieldsAux true (c :: cur) rest acc
  | true, cur, [], acc => acc ++ [String.mk cur.reverse]

/-- Parse one CSV line into its fields. -/
def parseLine (s : String) : List String :=
  parseFieldsAux false [] s.toList []

/-- Parse a CSV file body into rows of fields. -/
def parseCSV (s : String) : List (List String) :=
  ((splitOnChar '\n' s.toList).map (fun cs => parseLine (String.mk cs)))

/-- A digit run as a number; `none` on the empty run or a non-digit. -/
def digitsToNat (cs : List Char) : Option Nat :=
  if cs.isEmpty then none
  else cs.foldl (fun acc c =>
    match acc with
    | none => none
    | some n => if c.isDigit then some (n * 10 + (c.toNat - 48)) else none)
    (some 0)

/-- A non-negative decimal numeral (`15`, `25.0`, `8.5`) as a rational, the
way `read_csv` turns a numeric field back into a number. -/
def parseQCell (s : String) : Option ℚ :=
  match splitOnChar '.' s.toList with
  | [w] => (digitsToNat w).map (fun n => mkRat n 1)
  | [w, f] =>
    match digitsToNat w, digitsToNat f with
    | some n, some m => some (mkRat (n * 10 ^ f.length + m) (10 ^ f.length))
    | _, _ => none
  | _ => none

/-- An integer-column cell as pandas writes it (int64 rendering). -/
def renderIntCell (q : ℚ) : String := toString q.num

/-- A float-column cell as pandas writes the one-decimal values of the ROI
table: integral values with a trailing `.0`, halves with their tenths
digit. -/
def renderFloatCell (q : ℚ) : String :=
  if q.den = 1 then toString q.num ++ ".0"
  else toString (q.num / (q.den : Int)) ++ "." ++
    toString ((q.num % (q.den : Int)) * 10 / (q.den : Int))

/-- The header row `to_csv` writes for the features table. -/
def featuresHeader : List String :=
  ["Feature Category", "Specific Feature", "Implementation Status",
   "User Benefit", "Time Saved (minutes)"]

/-- One features row as its exported fields, in column order. -/
def featureRowCells (r : FeatureRow) : List String :=
  [r.category, r.feature, r.status, r.benefit, toString r.timeSaved]

/-- The features table exactly as exported: header row then data rows. -/
def featuresTable : List (List String) :=
  featuresHeader :: featuresRows.map featureRowCells

/-- The header row `to_csv` writes for the ROI table. -/
def roiHeader : List String :=
  ["Metric", "Baseline (Without AI)", "With HealthSync AI", "Improvement"]

/-- One ROI row as its exported fields, in column order. -/
def roiRowCells (r : RoiRow) : List String :=
  [r.metric, renderIntCell r.baseline, renderFloatCell r.withAI,
   renderFloatCell r.improvement]

/-- The ROI table exactly as exported: header row then data rows. -/
def roiTable : List (List String) :=
  roiHeader :: roiRows.map roiRowCells

/-- The header row `to_csv` writes for the tech-specs table. -/
def techHeader : List String := ["Component", "Technology", "Key Capability"]

/-- One tech-specs row as its exported fields, in column order. -/
def techRowCells (r : TechRow) : List String :=
  [r.component, r.technology, r.capability]

/-- The tech-specs table exactly as exported: header row then data rows. -/
def techTable : List (List String) :=
  techHeader :: techRows.map techRowCells

set_option maxRecDepth 20000 in
/-- C6: reading back and parsing the delimited text the export writes
yields, for each of the three fixed tables, exactly the original rows in
field order and field values — including the comma-bearing tech-specs
fields, which survive through quoting — and the numeric cells re-parse to
the original numbers. -/
theorem csv_roundtrip :
    parseCSV (renderCSV featuresTable) = featuresTable ∧
    parseCSV (renderCSV roiTable) = roiTable ∧
    parseCSV (renderCSV techTable) = techTable ∧
    roiRows.all (fun r =>
      parseQCell (renderIntCell r.baseline) == some r.baseline &&
      parseQCell (renderFloatCell r.withAI) == some r.withAI &&
      parseQCell (renderFloatCell r.improvement) == some r.improvement) = true ∧
    featuresRows.all (fun r =>
      digitsToNat (toString r.timeSaved).toList == some r.timeSaved) = true := by
  refine ⟨by decide, by decide, by decide, by decide, by decide⟩

end HealthCal
